import Mathlib

/-!
Verification of the configuration-comparison engine of `config_comparison.py`.

The Python source is embedded shallowly: every function below mirrors one
function (or one loop body) of the source, with JSON payloads modelled by an
explicit inductive type, Python strings by `String`, and Python's exact
behaviour (strip, lower, split, replace, truthiness, str()) reimplemented as
executable Lean functions.  Exceptions have no counterpart in total functions;
where the source installs a try/except handler, the embedding takes an explicit
fault flag and the handler's answer is reproduced on the faulting branch.
-/

/-- Python whitespace characters, the set used by `str.strip` and by the regex
class `\s` on ASCII text. -/
def isPySpace (c : Char) : Bool :=
  c == ' ' || c == '\t' || c == '\n' || c == '\r' || c == '\x0b' || c == '\x0c'

/-- Python `str.strip()`: drop leading and trailing whitespace. -/
def pyStrip (s : String) : String :=
  ⟨((s.data.dropWhile isPySpace).reverse.dropWhile isPySpace).reverse⟩

/-- Python `str.lower()` on the ASCII range. -/
def pyLower (s : String) : String := ⟨s.data.map Char.toLower⟩

/-- Accumulator loop for splitting on a newline character. -/
def splitNlAux : List Char → List Char → List String
  | [], acc => [⟨acc.reverse⟩]
  | c :: cs, acc =>
    if c == '\n' then ⟨acc.reverse⟩ :: splitNlAux cs [] else splitNlAux cs (c :: acc)

/-- Python `str.split("\n")`. -/
def pySplitNl (s : String) : List String := splitNlAux s.data []

/-- Python `line.startswith(p)`. -/
def startsWithB (s p : String) : Bool := p.data.isPrefixOf s.data

/-- Occurrence test of one character list inside another. -/
def isInfixOfB : List Char → List Char → Bool
  | pat, [] => pat.isEmpty
  | pat, c :: cs => pat.isPrefixOf (c :: cs) || isInfixOfB pat cs

/-- Python substring test `sub in s`. -/
def containsSub (sub s : String) : Bool := isInfixOfB sub.data s.data

/-- Python `str.strip(c)` for a one-character argument: drop every leading and
trailing copy of that character. -/
def stripChar (c : Char) (s : String) : String :=
  ⟨((s.data.dropWhile (· == c)).reverse.dropWhile (· == c)).reverse⟩

/-- The single-quote character, referenced by code point. -/
def squote : Char := Char.ofNat 39

/-- `trim_whitespace` (src lines 96-106) applied to a string argument. -/
def trim_whitespace (s : String) : String := pyStrip s

/-- JSON-like values of the two loaded documents. -/
inductive JVal where
  | str (s : String)
  | num (n : Int)
  | bool (b : Bool)
  | null
  | list (items : List JVal)
  | obj (fields : List (String × JVal))

/-- Python truthiness of a JSON value (`if x`). -/
def pyTruthy : JVal → Bool
  | .str s => s != ""
  | .num n => n != 0
  | .bool b => b
  | .null => false
  | .list xs => !xs.isEmpty
  | .obj fs => !fs.isEmpty

mutual

/-- Python `repr` of a JSON value (single-quote convention for strings). -/
def pyRepr : JVal → String
  | .str s => String.singleton squote ++ s ++ String.singleton squote
  | .num n => toString n
  | .bool b => if b then "True" else "False"
  | .null => "None"
  | .list xs => "[" ++ pyReprList xs ++ "]"
  | .obj fs => "\x7b" ++ pyReprObj fs ++ "\x7d"

/-- Comma-separated reprs of the items of a list value. -/
def pyReprList : List JVal → String
  | [] => ""
  | [v] => pyRepr v
  | v :: vs => pyRepr v ++ ", " ++ pyReprList vs

/-- Comma-separated reprs of the fields of an object value. -/
def pyReprObj : List (String × JVal) → String
  | [] => ""
  | [(k, v)] => String.singleton squote ++ k ++ String.singleton squote ++ ": " ++ pyRepr v
  | (k, v) :: fs =>
    String.singleton squote ++ k ++ String.singleton squote ++ ": " ++ pyRepr v ++ ", " ++
      pyReprObj fs

end

/-- Python `str(x)`: the identity on strings, repr-style rendering otherwise. -/
def pyStr : JVal → String
  | .str s => s
  | v => pyRepr v

/-- `trim_whitespace` on an arbitrary value: non-strings go through `str` first
(src line 106). -/
def trimAny (v : JVal) : String := pyStrip (pyStr v)

/-- Case-insensitive prefix test, as `re.IGNORECASE` folds ASCII letters. -/
def ciPrefix (p s : List Char) : Bool :=
  (p.map Char.toLower).isPrefixOf (s.map Char.toLower)

/-- One attempt of `re.search(r"hostname\s+(\S+)", line, re.IGNORECASE)` anchored
at a fixed start position: the literal word, one or more whitespace characters,
then the captured maximal non-whitespace token. -/
def hostnameAt (cs : List Char) : Option String :=
  if ciPrefix "hostname".data cs then
    let after := cs.drop 8
    if (after.takeWhile isPySpace).isEmpty then none
    else
      let tok := (after.dropWhile isPySpace).takeWhile (fun c => !isPySpace c)
      if tok.isEmpty then none else some ⟨tok⟩
  else none

/-- Leftmost match of the hostname pattern, as `re.search` scans positions. -/
def searchHostname : List Char → Option String
  | [] => none
  | c :: cs =>
    match hostnameAt (c :: cs) with
    | some t => some t
    | none => searchHostname cs

/-- Hostname pattern search over one line of text. -/
def findHostnameInLine (line : String) : Option String := searchHostname line.data

/-- `extract_hostname_from_output` (src lines 108-146).  The output document is
the top-level JSON object, modelled as its field list.  A `data` value that is
not an object makes every lookup in the source raise or fail, which the
enclosing handler answers with the default, so it is mapped to the default
directly. -/
def extract_hostname_from_output (output_data : List (String × JVal)) : String :=
  match output_data.lookup "data" with
  | some (JVal.obj data) =>
    let fromVersion : Option String :=
      match data.lookup "version" with
      | some (JVal.list lines) =>
        lines.findSome? fun l =>
          match l with
          | JVal.str s => findHostnameInLine s
          | _ => none
      | _ => none
    match fromVersion with
    | some h => h
    | none =>
      match data.lookup "run_config" with
      | some (JVal.str s) => ((pySplitNl s).findSome? findHostnameInLine).getD "Unknown-Device"
      | _ => "Unknown-Device"
  | _ => "Unknown-Device"

/-- `parse_whitelist_section` (src lines 148-181). -/
def parse_whitelist_section (section_data : JVal) : List String :=
  let config_lines : List String :=
    match section_data with
    | JVal.obj fields =>
      match fields.lookup "must_include" with
      | some (JVal.list must_include) =>
        (must_include.filter pyTruthy).map trimAny
      | some (JVal.str s) =>
        (pySplitNl s).filterMap fun raw =>
          let line := trim_whitespace raw
          if line ≠ "" ∧ ¬ startsWithB line "#" = true then
            let line := stripChar squote (stripChar '"' line)
            if line ≠ "" then some line else none
          else none
      | _ => []
    | _ => []
  config_lines.filter (fun line => line != "")

/-- Keep a trimmed line unless it is empty or starts with the `!` comment
marker; the filter applied to every emitted line of `parse_output_section`. -/
def keepLine (t : String) : Option String :=
  if t ≠ "" ∧ ¬ startsWithB t "!" = true then some t else none

/-- `parse_output_section` (src lines 183-246). -/
def parse_output_section (section_data : JVal) (section_name : String) : List String :=
  match section_data with
  | JVal.obj fields =>
    if section_name = "vty" then
      match fields.lookup "stdout_lines" with
      | some (JVal.list groups) =>
        groups.flatMap fun g =>
          match g with
          | JVal.list lines => lines.filterMap fun l => keepLine (trimAny l)
          | _ => []
      | some _ => []
      | none =>
        match fields.lookup "stdout" with
        | some (JVal.list items) =>
          items.flatMap fun it =>
            match it with
            | JVal.str s => (pySplitNl s).filterMap fun l => keepLine (trim_whitespace l)
            | _ => []
        | _ => []
    else []
  | JVal.list items =>
    items.filterMap fun it =>
      match it with
      | JVal.str s => keepLine (trim_whitespace s)
      | JVal.list xs =>
        keepLine (trim_whitespace (String.intercalate " " ((xs.filter pyTruthy).map pyStr)))
      | _ => none
  | JVal.str s => (pySplitNl s).filterMap fun l => keepLine (trim_whitespace l)
  | _ => []

/-- Atoms of the regular-expression fragment that the placeholder substitution
table of `compare_configurations` produces: `\d`, `\S`, `.` and literals. -/
inductive RAtom where
  | digit
  | nonsp
  | anyc
  | lit (c : Char)
deriving DecidableEq

/-- A regex atom, either once or under a `+` repetition. -/
inductive RTok where
  | once (a : RAtom)
  | plus (a : RAtom)
deriving DecidableEq

/-- Single-character semantics of the atoms; `.` does not match a newline. -/
def atomMatch : RAtom → Char → Bool
  | RAtom.digit, c => c.isDigit
  | RAtom.nonsp, c => !isPySpace c
  | RAtom.anyc, c => c != '\n'
  | RAtom.lit d, c => c == d

/-- Regex metacharacters outside the supported fragment.  A generated pattern
using one is treated exactly like the invalid-pattern case that the source
catches and skips (src lines 304-309): it never matches. -/
def isMetaChar (c : Char) : Bool :=
  c == '*' || c == '?' || c == '+' || c == '(' || c == ')' || c == '|' ||
  c == '^' || c == '$' || c == '[' || c == ']' ||
  c == Char.ofNat 123 || c == Char.ofNat 125

/-- Tokenizer for the supported pattern fragment: `\d`, `\S`, `\.`, `.`, plain
characters, each optionally followed by `+`. -/
def tokenize : List Char → Option (List RTok)
  | [] => some []
  | '\\' :: 'd' :: '+' :: rest => (tokenize rest).map (fun ts => RTok.plus RAtom.digit :: ts)
  | '\\' :: 'd' :: rest => (tokenize rest).map (fun ts => RTok.once RAtom.digit :: ts)
  | '\\' :: 'S' :: '+' :: rest => (tokenize rest).map (fun ts => RTok.plus RAtom.nonsp :: ts)
  | '\\' :: 'S' :: rest => (tokenize rest).map (fun ts => RTok.once RAtom.nonsp :: ts)
  | '\\' :: '.' :: '+' :: rest => (tokenize rest).map (fun ts => RTok.plus (RAtom.lit '.') :: ts)
  | '\\' :: '.' :: rest => (tokenize rest).map (fun ts => RTok.once (RAtom.lit '.') :: ts)
  | '\\' :: _ => none
  | '.' :: '+' :: rest => (tokenize rest).map (fun ts => RTok.plus RAtom.anyc :: ts)
  | '.' :: rest => (tokenize rest).map (fun ts => RTok.once RAtom.anyc :: ts)
  | c :: '+' :: rest =>
    if isMetaChar c then none else (tokenize rest).map (fun ts => RTok.plus (RAtom.lit c) :: ts)
  | c :: rest =>
    if isMetaChar c then none else (tokenize rest).map (fun ts => RTok.once (RAtom.lit c) :: ts)

/-- Backtracking matcher for a token list against a character list, driven by a
fuel counter for structural recursion; every step lowers tokens + characters,
so any fuel of at least that sum gives the untruncated backtracking search. -/
def matchToksFuel : Nat → List RTok → List Char → Bool
  | _, [], _ => true
  | 0, ts, _ => ts.isEmpty
  | fuel + 1, RTok.once a :: ts, c :: cs => atomMatch a c && matchToksFuel fuel ts cs
  | fuel + 1, RTok.plus a :: ts, c :: cs =>
    atomMatch a c && (matchToksFuel fuel ts cs || matchToksFuel fuel (RTok.plus a :: ts) cs)
  | _ + 1, _ :: _, [] => false

/-- Matcher for a token list: an empty token list always succeeds, so, like
`re.match`, the pattern only has to cover a prefix of the input. -/
def matchToks (ts : List RTok) (cs : List Char) : Bool :=
  matchToksFuel (ts.length + cs.length) ts cs

/-- `re.match(pattern, line)` on the supported fragment: anchored at the start
of the line, free at the end. -/
def regex_match (pattern line : String) : Bool :=
  match tokenize pattern.data with
  | some ts => matchToks ts line.data
  | none => false

/-- Python `str.replace` on character lists, driven by a fuel counter for
structural recursion; every step consumes at least one character, so any fuel
of at least the input length scans the whole input, all occurrences replaced
left to right without overlap. -/
def replaceAllFuel : Nat → List Char → List Char → List Char → List Char
  | 0, _, _, s => s
  | _ + 1, _, _, [] => []
  | fuel + 1, pat, rep, c :: cs =>
    if pat ≠ [] ∧ pat.isPrefixOf (c :: cs) then
      rep ++ replaceAllFuel fuel pat rep (cs.drop (pat.length - 1))
    else
      c :: replaceAllFuel fuel pat rep cs

/-- Python `str.replace`, on character lists: all occurrences, left to right. -/
def replaceAll (pat rep s : List Char) : List Char := replaceAllFuel s.length pat rep s

/-- Python `s.replace(old, new)`. -/
def pyReplace (s old new : String) : String := ⟨replaceAll old.data new.data s.data⟩

/-- The fixed placeholder-to-pattern substitution of `compare_configurations`
(src lines 297-302), applied in source order to a normalized template. -/
def build_pattern (whitelist_line : String) : String :=
  pyReplace (pyReplace (pyReplace (pyReplace (pyReplace whitelist_line
    "[x.x.x.x]" "\\d+\\.\\d+\\.\\d+\\.\\d+")
    "[community string]" "\\S+")
    "[username]" "\\S+")
    "[building, site, country]" ".+")
    "[description]" ".+"

/-- Normalization used throughout the comparator: trim then lowercase
(`trim_whitespace(line.lower())`, src lines 268-269). -/
def pynorm (line : String) : String := trim_whitespace (pyLower line)

/-- Bracket-placeholder test of the source: both `[` and `]` occur. -/
def bracketedB (s : String) : Bool := s.data.contains '[' && s.data.contains ']'

/-- The boilerplate substrings skipped by the extra-configuration loop
(src line 287). -/
def skip_patterns : List String :=
  ["building configuration", "current configuration", "version", "service timestamps"]

/-- Message format of a missing finding (src line 280). -/
def missingMsg (required_line hostname : String) : String :=
  "missing config: " ++ required_line ++ ":" ++ hostname

/-- Message format of an additional finding (src line 312). -/
def additionalMsg (current_line hostname : String) : String :=
  "additional config: " ++ current_line ++ ":" ++ hostname

/-- Body of the missing-configuration loop (src lines 272-280) for one required
template. -/
def missing_decision (output_normalized : List String) (hostname required_line : String) :
    Option String :=
  let required_normalized := pynorm required_line
  if bracketedB required_normalized then none
  else if required_normalized ∈ output_normalized then none
  else some (missingMsg required_line hostname)

/-- The placeholder check of src lines 293-309 for one candidate line: some
normalized whitelist template with a bracket pair generates a pattern matching
the line. -/
def is_dynamic_line (whitelist_normalized : List String) (current_normalized : String) : Bool :=
  whitelist_normalized.any fun whitelist_line =>
    bracketedB whitelist_line &&
      regex_match (build_pattern whitelist_line) current_normalized

/-- Body of the additional-configuration loop (src lines 283-312) for one
current line. -/
def extra_decision (whitelist_normalized : List String) (hostname current_line : String) :
    Option String :=
  let current_normalized := pynorm current_line
  if skip_patterns.any (fun p => containsSub p current_normalized) then none
  else if current_normalized ∈ whitelist_normalized then none
  else if is_dynamic_line whitelist_normalized current_normalized then none
  else some (additionalMsg current_line hostname)

/-- `compare_configurations` (src lines 248-318), fault-free path: the two
loops, kept in input order. -/
def compare_configurations (output_config whitelist_config : List String)
    (hostname section_name : String) : List String × List String :=
  (whitelist_config.filterMap (missing_decision (output_config.map pynorm) hostname),
   output_config.filterMap (extra_decision (whitelist_config.map pynorm) hostname))

/-- `compare_configurations` with its try/except wrapper (src lines 263 and
316-318): `fault = true` models an exception raised anywhere inside the body,
answered by the handler with the empty pair. -/
def compare_configurations_guarded (fault : Bool) (output_config whitelist_config : List String)
    (hostname section_name : String) : List String × List String :=
  if fault then ([], []) else
    compare_configurations output_config whitelist_config hostname section_name

/-- One row of the summary aggregate (src lines 401-407 and 417-423). -/
structure SectionSummary where
  sectionName : String
  hostname : String
  status : String
  missing_count : Nat
  additional_count : Nat
deriving DecidableEq

/-- `section_mapping` (src lines 343-360). -/
def section_mapping : List (String × String) :=
  [("vty", "vty"), ("snmp_Run", "snmp"), ("snmp_run", "snmp"), ("dhcp", "dhcp"),
   ("tacacs", "TACACS"), ("vlan", "vlan"), ("logging", "Log_server"), ("mtu", "mtu"),
   ("vtyaccess_acl", "vty_ACL"), ("snmp_ro_acl", "snmp_ACL"),
   ("source_interface", "run_config"), ("ntp", "ntp"), ("interface_section", "run_config"),
   ("version", "version"), ("license", "License_status"), ("clock_detail", "clock")]

/-- `section_mapping.get(section_name, section_name)` (src line 376). -/
def mapped_section_of (section_name : String) : String :=
  (section_mapping.lookup section_name).getD section_name

/-- `output_data.get('data', {})` (src line 340); a non-object value would fail
every key lookup of the section loop, so it is modelled as the empty object. -/
def device_data_of (output_data : List (String × JVal)) : List (String × JVal) :=
  match output_data.lookup "data" with
  | some (JVal.obj fields) => fields
  | _ => []

/-- Output-section resolution (src lines 374-385): exact key first, then a
case-insensitive scan over the available keys. -/
def find_output_section (device_data : List (String × JVal)) (mapped_section : String) :
    Option JVal :=
  match device_data.lookup mapped_section with
  | some v => some v
  | none =>
    (device_data.find? fun kv => pyLower kv.1 == pyLower mapped_section).map Prod.snd

/-- Current configuration lines resolved for one whitelist section
(src lines 374-390): resolve the aliased payload, then normalize it; an absent
payload yields no lines. -/
def section_current (output_data : List (String × JVal)) (section_name : String) :
    List String :=
  match find_output_section (device_data_of output_data) (mapped_section_of section_name) with
  | some output_section => parse_output_section output_section section_name
  | none => []

/-- One iteration of the section loop of `process_device_comparison`
(src lines 363-423).  `faults section_name = true` models an unexpected
exception raised while processing that section (after its requirement list was
found non-empty), answered by the handler of src lines 415-423 with an error
row, zero counts and no issues; `none` is the skip of an empty requirement
list (src lines 370-372). -/
def process_section (hostname : String) (output_data : List (String × JVal))
    (faults : String → Bool) (section_name : String) (whitelist_section : JVal) :
    Option (SectionSummary × List String) :=
  let required_configs := parse_whitelist_section whitelist_section
  if required_configs.isEmpty then none
  else if faults section_name then
    some ({ sectionName := section_name, hostname := hostname, status := "error",
            missing_count := 0, additional_count := 0 }, [])
  else
    let r := compare_configurations (section_current output_data section_name)
      required_configs hostname section_name
    some ({ sectionName := section_name, hostname := hostname,
            status := if r.1 = [] ∧ r.2 = [] then "OK" else "to_check",
            missing_count := r.1.length, additional_count := r.2.length },
          r.1 ++ r.2)

/-- `process_device_comparison` (src lines 320-429): hostname extracted once,
then every whitelist section processed in order; summaries and findings are
collected in that order. -/
def process_device_comparison (faults : String → Bool)
    (output_data : List (String × JVal)) (whitelist_data : List (String × JVal)) :
    List SectionSummary × List String :=
  let hostname := extract_hostname_from_output output_data
  let results := whitelist_data.filterMap fun kv =>
    process_section hostname output_data faults kv.1 kv.2
  (results.map Prod.fst, results.flatMap Prod.snd)

/-- The compliance score of `create_excel_report` (src line 484), with exact
rational arithmetic in place of Python float arithmetic. -/
def compliance_score (summary_data : List SectionSummary) : ℚ :=
  if summary_data.length > 0 then
    max 0 ((((summary_data.length : ℚ) -
        ((summary_data.filter fun s => s.status == "to_check").length : ℚ)) /
      (summary_data.length : ℚ)) * 100)
  else 100

/-- Rounding to an integer as the `:.0f` format of src line 501 performs it:
round half to even. -/
def roundHalfEven (q : ℚ) : ℤ :=
  if q - ⌊q⌋ < 1 / 2 then ⌊q⌋
  else if 1 / 2 < q - ⌊q⌋ then ⌊q⌋ + 1
  else if ⌊q⌋ % 2 = 0 then ⌊q⌋ else ⌊q⌋ + 1

/-- The integer percentage shown in the Statistics sheet (src lines 484, 501). -/
def reported_compliance (summary_data : List SectionSummary) : ℤ :=
  roundHalfEven (compliance_score summary_data)

/-- Modelled from the spec's words, for comparison with the source formula:
the number of sections with status OK over the total number of sections, times
100, rounded, floored at 0. -/
def spec_compliance_claimed (summary_data : List SectionSummary) : ℤ :=
  max 0 (roundHalfEven
    ((((summary_data.filter fun s => s.status == "OK").length : ℚ) /
      (summary_data.length : ℚ)) * 100))

/-! Helper lemmas about the embedding, shared by the claim theorems below. -/

theorem data_append (s t : String) : (s ++ t).data = s.data ++ t.data := by
  cases s; cases t; rfl

theorem string_data_inj {s t : String} (h : s.data = t.data) : s = t :=
  congrArg String.mk h

theorem missingMsg_inj {hostname a b : String}
    (h : missingMsg a hostname = missingMsg b hostname) : a = b := by
  have hd := congrArg String.data h
  simp only [missingMsg, data_append, List.append_assoc] at hd
  exact string_data_inj (List.append_cancel_right (List.append_cancel_left hd))

theorem additionalMsg_inj {hostname a b : String}
    (h : additionalMsg a hostname = additionalMsg b hostname) : a = b := by
  have hd := congrArg String.data h
  simp only [additionalMsg, data_append, List.append_assoc] at hd
  exact string_data_inj (List.append_cancel_right (List.append_cancel_left hd))

theorem missing_decision_eq_some {out : List String} {hostname t m : String}
    (h : missing_decision out hostname t = some m) :
    m = missingMsg t hostname ∧ bracketedB (pynorm t) = false ∧ pynorm t ∉ out := by
  unfold missing_decision at h
  by_cases h1 : bracketedB (pynorm t)
  · simp [h1] at h
  · by_cases h2 : pynorm t ∈ out
    · simp [h1, h2] at h
    · simp [h1, h2] at h
      exact ⟨h.symm, by simpa using h1, h2⟩

theorem missing_decision_some_self {out : List String} {hostname t : String}
    (hbr : bracketedB (pynorm t) = false) (habs : pynorm t ∉ out) :
    missing_decision out hostname t = some (missingMsg t hostname) := by
  simp [missing_decision, hbr, habs]

theorem extra_decision_eq_some {wn : List String} {hostname L m : String}
    (h : extra_decision wn hostname L = some m) :
    m = additionalMsg L hostname ∧
      (skip_patterns.any fun p => containsSub p (pynorm L)) = false ∧
      pynorm L ∉ wn ∧ is_dynamic_line wn (pynorm L) = false := by
  unfold extra_decision at h
  by_cases h1 : skip_patterns.any fun p => containsSub p (pynorm L)
  · simp [h1] at h
  · by_cases h2 : pynorm L ∈ wn
    · simp [h1, h2] at h
    · by_cases h3 : is_dynamic_line wn (pynorm L)
      · simp [h1, h2, h3] at h
      · simp [h1, h2, h3] at h
        exact ⟨h.symm, by simpa using h1, h2, by simpa using h3⟩

theorem extra_decision_eq_none {wn : List String} {hostname L : String}
    (h : (skip_patterns.any fun p => containsSub p (pynorm L)) = true ∨
      pynorm L ∈ wn ∨ is_dynamic_line wn (pynorm L) = true) :
    extra_decision wn hostname L = none := by
  unfold extra_decision
  rcases h with h | h | h
  · simp [h]
  · simp [h]
  · by_cases h1 : skip_patterns.any fun p => containsSub p (pynorm L) <;>
      by_cases h2 : pynorm L ∈ wn <;> simp [h1, h2, h]

theorem additional_not_mem {output_config wn : List String} {hostname L : String}
    (hnone : extra_decision wn hostname L = none) :
    additionalMsg L hostname ∉ output_config.filterMap (extra_decision wn hostname) := by
  intro hmem
  obtain ⟨L', hL', hsome⟩ := List.mem_filterMap.mp hmem
  obtain ⟨heq, -, -, -⟩ := extra_decision_eq_some hsome
  rw [additionalMsg_inj heq] at hnone
  rw [hnone] at hsome
  exact Option.noConfusion hsome

/-- C2, as stated, is refuted: with the duplicate required list `["a", "a"]`, no
current lines, and hostname "h", the template "a" satisfies the claim's
hypotheses (no bracket pair, absent from the current lines) yet its missing
message appears twice in the result, not exactly once. -/
theorem missing_once_counterexample :
    (bracketedB (pynorm "a") = false ∧ pynorm "a" ∉ (([] : List String).map pynorm)) ∧
    ¬ ((compare_configurations [] ["a", "a"] "h" "s").1).count (missingMsg "a" "h") = 1 := by
  constructor
  · exact ⟨by decide, by decide⟩
  · decide

/-- C2 (amended): in every Comparator call, a required template T whose
normalized form does not contain a bracket pair and is absent from the
normalized current-line set contributes the message "missing config: T:hostname"
exactly as many times as T occurs in the required-template list (so exactly
once when it occurs once); a template whose normalized form contains both `[`
and `]` is never reported missing. -/
theorem missing_multiplicity (output_config whitelist_config : List String)
    (hostname section_name T : String) :
    (bracketedB (pynorm T) = false →
      pynorm T ∉ output_config.map pynorm →
      ((compare_configurations output_config whitelist_config hostname section_name).1).count
          (missingMsg T hostname) = whitelist_config.count T)
    ∧ (bracketedB (pynorm T) = true →
      ((compare_configurations output_config whitelist_config hostname section_name).1).count
          (missingMsg T hostname) = 0) := by
  unfold compare_configurations
  constructor
  · intro hbr habs
    induction whitelist_config with
    | nil => rfl
    | cons t ts ih =>
      rw [List.filterMap_cons]
      by_cases ht : t = T
      · subst ht
        rw [missing_decision_some_self hbr habs]
        simp [List.count_cons, ih]
      · rcases hdec : missing_decision (output_config.map pynorm) hostname t with _ | m
        · simp only [hdec, List.count_cons]
          rw [ih]
          simp [ht]
        · obtain ⟨hm, -, -⟩ := missing_decision_eq_some hdec
          have hne : m ≠ missingMsg T hostname := by
            intro he
            exact ht (missingMsg_inj (hm ▸ he))
          simp only [hdec, List.count_cons]
          rw [ih]
          simp [ht, hne]
  · intro hbr
    induction whitelist_config with
    | nil => rfl
    | cons t ts ih =>
      rw [List.filterMap_cons]
      rcases hdec : missing_decision (output_config.map pynorm) hostname t with _ | m
      · simpa using ih
      · obtain ⟨hm, hbf, -⟩ := missing_decision_eq_some hdec
        have hne : m ≠ missingMsg T hostname := by
          intro he
          have ht : t = T := missingMsg_inj (hm ▸ he)
          rw [ht, hbr] at hbf
          exact Bool.noConfusion hbf
        simp only [List.count_cons]
        rw [ih]
        simp [hne]

/-- Witness for the amended C2 at a concrete input: a single absent literal
template is reported exactly once (its multiplicity in the list). -/
theorem missing_multiplicity_witness :
    (bracketedB (pynorm "snmp-server community public") = false ∧
      pynorm "snmp-server community public" ∉ (([] : List String).map pynorm)) ∧
    ((compare_configurations [] ["snmp-server community public"] "h1" "snmp").1).count
        (missingMsg "snmp-server community public" "h1") =
      (["snmp-server community public"] : List String).count "snmp-server community public" :=
  ⟨⟨by decide, by decide⟩,
    (missing_multiplicity [] ["snmp-server community public"] "h1" "snmp"
      "snmp-server community public").1 (by decide) (by decide)⟩

/-- C5: in every Comparator call, a current line whose normalized form contains
one of the fixed boilerplate substrings ("building configuration", "current
configuration", "version", "service timestamps") never appears in the extra
result, whatever the whitelist contains. -/
theorem boilerplate_suppression (output_config whitelist_config : List String)
    (hostname section_name L : String) (hL : L ∈ output_config)
    (hb : (skip_patterns.any fun p => containsSub p (pynorm L)) = true) :
    additionalMsg L hostname ∉
      (compare_configurations output_config whitelist_config hostname section_name).2 :=
  additional_not_mem (extra_decision_eq_none (Or.inl hb))

/-- Witness for C5 at a concrete input: "version 15.2" is never an extra
finding even against an empty whitelist. -/
theorem boilerplate_suppression_witness :
    ("version 15.2" ∈ ["version 15.2"] ∧
      (skip_patterns.any fun p => containsSub p (pynorm "version 15.2")) = true) ∧
    additionalMsg "version 15.2" "h1" ∉
      (compare_configurations ["version 15.2"] [] "h1" "snmp").2 :=
  ⟨⟨by decide, by decide⟩,
    boilerplate_suppression ["version 15.2"] [] "h1" "snmp" "version 15.2"
      (by decide) (by decide)⟩

/-- C3: in every Comparator call, a current line L matched (anchored at the
start, free at the end) by the pattern that the fixed placeholder substitution
table generates from some bracket-carrying whitelist template never appears in
the extra result; and templates without a bracket pair never act as wildcards:
when no bracket-carrying template's pattern matches L, and L is neither
boilerplate nor an exact normalized member of the whitelist, L is reported
extra in spite of any bracket-free template. -/
theorem placeholder_suppression (output_config whitelist_config : List String)
    (hostname section_name L : String) (hL : L ∈ output_config) :
    ((∃ t ∈ whitelist_config, bracketedB (pynorm t) = true ∧
        regex_match (build_pattern (pynorm t)) (pynorm L) = true) →
      additionalMsg L hostname ∉
        (compare_configurations output_config whitelist_config hostname section_name).2)
    ∧ ((∀ t ∈ whitelist_config, ¬(bracketedB (pynorm t) = true ∧
          regex_match (build_pattern (pynorm t)) (pynorm L) = true)) →
      (∀ p ∈ skip_patterns, containsSub p (pynorm L) = false) →
      pynorm L ∉ whitelist_config.map pynorm →
      additionalMsg L hostname ∈
        (compare_configurations output_config whitelist_config hostname section_name).2) := by
  unfold compare_configurations
  constructor
  · rintro ⟨t, ht, hbr, hm⟩
    have hdyn : is_dynamic_line (whitelist_config.map pynorm) (pynorm L) = true := by
      unfold is_dynamic_line
      rw [List.any_eq_true]
      exact ⟨pynorm t, List.mem_map.mpr ⟨t, ht, rfl⟩, by rw [hbr, hm]; rfl⟩
    exact additional_not_mem (extra_decision_eq_none (Or.inr (Or.inr hdyn)))
  · intro hnomatch hskip hmem
    have hdyn : is_dynamic_line (whitelist_config.map pynorm) (pynorm L) = false := by
      unfold is_dynamic_line
      rw [List.any_eq_false]
      intro w hw hand
      obtain ⟨t, ht, rfl⟩ := List.mem_map.mp hw
      obtain ⟨hb1, hb2⟩ := Bool.and_eq_true_iff.mp hand
      exact hnomatch t ht ⟨hb1, hb2⟩
    have hskipb : (skip_patterns.any fun p => containsSub p (pynorm L)) = false := by
      rw [List.any_eq_false]
      intro p hp
      simp [hskip p hp]
    exact List.mem_filterMap.mpr ⟨L, hL, by simp [extra_decision, hskipb, hmem, hdyn]⟩

/-- Witness for C3 at a concrete input: "ntp server 10.0.0.1" is matched by the
pattern generated from "ntp server [x.x.x.x]" and is suppressed. -/
theorem placeholder_suppression_witness :
    ("ntp server 10.0.0.1" ∈ ["ntp server 10.0.0.1"] ∧
      (∃ t ∈ ["ntp server [x.x.x.x]"], bracketedB (pynorm t) = true ∧
        regex_match (build_pattern (pynorm t)) (pynorm "ntp server 10.0.0.1") = true)) ∧
    additionalMsg "ntp server 10.0.0.1" "h1" ∉
      (compare_configurations ["ntp server 10.0.0.1"] ["ntp server [x.x.x.x]"] "h1" "ntp").2 :=
  ⟨⟨by decide, by decide⟩,
    (placeholder_suppression ["ntp server 10.0.0.1"] ["ntp server [x.x.x.x]"] "h1" "ntp"
      "ntp server 10.0.0.1" (by decide)).1 (by decide)⟩

/-- C8: the Comparator never propagates a fault.  On the faulting branch the
try/except wrapper answers with the empty pair for that section, and on the
fault-free branch it is exactly the comparison body, so every input yields a
result and the overall run is not aborted. -/
theorem comparator_fault_containment (output_config whitelist_config : List String)
    (hostname section_name : String) :
    compare_configurations_guarded true output_config whitelist_config hostname section_name
        = ([], []) ∧
    compare_configurations_guarded false output_config whitelist_config hostname section_name
        = compare_configurations output_config whitelist_config hostname section_name :=
  ⟨rfl, rfl⟩

/-- C10: for a section other than vty, an object (mapping) payload falls through
every branch of the Output Section Normalizer and yields the empty sequence,
exactly like an absent payload. -/
theorem non_vty_envelope_empty (fields : List (String × JVal)) (section_name : String)
    (h : section_name ≠ "vty") :
    parse_output_section (JVal.obj fields) section_name = [] := by
  unfold parse_output_section
  simp [h]

/-- Witness for C10 at a concrete input: an envelope payload under a non-vty
section name normalizes to nothing. -/
theorem non_vty_envelope_empty_witness :
    ("snmp" ≠ "vty") ∧
    parse_output_section
        (JVal.obj [("stdout_lines", JVal.list [JVal.list [JVal.str "line1"]])]) "snmp" = [] :=
  ⟨by decide,
    non_vty_envelope_empty [("stdout_lines", JVal.list [JVal.list [JVal.str "line1"]])]
      "snmp" (by decide)⟩

/-- C6: for the vty section, an envelope payload with a `stdout_lines` list of
string line-groups is flattened in order, every line trimmed, and empty or
`!`-prefixed lines dropped; in particular the payload
`{"stdout_lines": [["line1","!banner","line2"]]}` normalizes to
`["line1","line2"]`. -/
theorem vty_envelope_normalization :
    (∀ groups : List (List String),
      parse_output_section
          (JVal.obj [("stdout_lines",
            JVal.list (groups.map fun g => JVal.list (g.map JVal.str)))]) "vty"
        = groups.flatten.filterMap fun l => keepLine (pyStrip l)) ∧
    parse_output_section
        (JVal.obj [("stdout_lines",
          JVal.list [JVal.list [JVal.str "line1", JVal.str "!banner", JVal.str "line2"]])]) "vty"
      = ["line1", "line2"] := by
  constructor
  · intro groups
    have hinner : ∀ g : List String,
        (g.map JVal.str).filterMap (fun l => keepLine (trimAny l))
          = g.filterMap fun l => keepLine (pyStrip l) := by
      intro g
      rw [List.filterMap_map]
      rfl
    unfold parse_output_section
    simp only [List.lookup, beq_self_eq_true, eq_self_iff_true, if_true]
    induction groups with
    | nil => simp
    | cons g gs ih =>
      simp only [if_true] at ih
      simp only [List.map_cons, List.flatMap_cons, List.flatten_cons, List.filterMap_append,
        hinner, ih, if_true]
  · decide

theorem findSomeAppend {α β : Type} (f : α → Option β) (l₁ l₂ : List α) :
    (l₁ ++ l₂).findSome? f =
      match l₁.findSome? f with
      | some b => some b
      | none => l₂.findSome? f := by
  induction l₁ with
  | nil => simp [List.findSome?]
  | cons a as ih =>
    simp only [List.cons_append, List.findSome?_cons]
    cases hfa : f a
    · exact ih
    · rfl

theorem findSomeFilterMap {α β γ : Type} (g : α → Option β) (f : β → Option γ) (l : List α) :
    (l.filterMap g).findSome? f = l.findSome? fun a => (g a).bind f := by
  induction l with
  | nil => rfl
  | cons a as ih =>
    rw [List.filterMap_cons]
    cases hga : g a with
    | none => simp [List.findSome?_cons, hga, ih]
    | some b => simp [List.findSome?_cons, hga, ih]

/-- The lines that hostname extraction scans first, stated from the claim: the
string items of a list-valued `version` section of the output document. -/
def version_scan_lines (output_data : List (String × JVal)) : List String :=
  match (device_data_of output_data).lookup "version" with
  | some (JVal.list lines) =>
    lines.filterMap fun l =>
      match l with
      | JVal.str s => some s
      | _ => none
  | _ => []

/-- The lines that hostname extraction scans second, stated from the claim: the
newline-split lines of a string-valued `run_config` section. -/
def run_config_scan_lines (output_data : List (String × JVal)) : List String :=
  match (device_data_of output_data).lookup "run_config" with
  | some (JVal.str s) => pySplitNl s
  | _ => []

/-- C7: hostname extraction is the ordered scan of the version-section lines
followed by the run_config lines for the first case-insensitive
`hostname <token>` match, with "Unknown-Device" when no line matches — in
particular when both sections are absent. -/
theorem hostname_extraction_order (output_data : List (String × JVal)) :
    extract_hostname_from_output output_data =
      ((version_scan_lines output_data ++ run_config_scan_lines output_data).findSome?
        findHostnameInLine).getD "Unknown-Device" := by
  have hva : ∀ lines : List JVal,
      ((lines.filterMap fun l =>
          match l with
          | JVal.str s => some s
          | _ => none).findSome? findHostnameInLine)
        = lines.findSome? fun l =>
            match l with
            | JVal.str s => findHostnameInLine s
            | _ => none := by
    intro lines
    rw [findSomeFilterMap]
    congr 1
    funext l
    cases l <;> rfl
  unfold extract_hostname_from_output version_scan_lines run_config_scan_lines device_data_of
  rw [findSomeAppend]
  cases hD : output_data.lookup "data" with
  | none => simp only [hD]; rfl
  | some v =>
    cases v with
    | obj data =>
      simp only [hD]
      cases hv : data.lookup "version" with
      | some w =>
        cases w with
        | list lines =>
          simp only [hv, hva]
          cases hscan : lines.findSome? fun l =>
              match l with
              | JVal.str s => findHostnameInLine s
              | _ => none with
          | some h => simp only [hscan]; rfl
          | none =>
            simp only [hscan]
            cases hr : data.lookup "run_config" with
            | some u => cases u <;> simp only [hr] <;> rfl
            | none => simp only [hr]; rfl
        | str s =>
          simp only [hv]
          cases hr : data.lookup "run_config" with
          | some u => cases u <;> simp only [hr] <;> rfl
          | none => simp only [hr]; rfl
        | num n =>
          simp only [hv]
          cases hr : data.lookup "run_config" with
          | some u => cases u <;> simp only [hr] <;> rfl
          | none => simp only [hr]; rfl
        | bool b =>
          simp only [hv]
          cases hr : data.lookup "run_config" with
          | some u => cases u <;> simp only [hr] <;> rfl
          | none => simp only [hr]; rfl
        | null =>
          simp only [hv]
          cases hr : data.lookup "run_config" with
          | some u => cases u <;> simp only [hr] <;> rfl
          | none => simp only [hr]; rfl
        | obj fs =>
          simp only [hv]
          cases hr : data.lookup "run_config" with
          | some u => cases u <;> simp only [hr] <;> rfl
          | none => simp only [hr]; rfl
      | none =>
        simp only [hv]
        cases hr : data.lookup "run_config" with
        | some u => cases u <;> simp only [hr] <;> rfl
        | none => simp only [hr]; rfl
    | str s => simp only [hD]; rfl
    | num n => simp only [hD]; rfl
    | bool b => simp only [hD]; rfl
    | null => simp only [hD]; rfl
    | list items => simp only [hD]; rfl

/-- C4: every whitelist section with a non-empty required-template list emits
exactly one summary row: on the fault-free path its status is OK precisely when
the section's comparison produced no missing and no extra findings and is
to_check otherwise, while a faulting section yields status error with zero
counts; the row exists whatever the fault behaviour of any section, so
processing always continues to the next section. -/
theorem section_status_consistency (faults : String → Bool)
    (output_data whitelist_data : List (String × JVal)) (n : String) (d : JVal)
    (hmem : (n, d) ∈ whitelist_data) (hne : parse_whitelist_section d ≠ []) :
    ∃ e ∈ (process_device_comparison faults output_data whitelist_data).1,
      e.sectionName = n ∧
      (faults n = true →
        e.status = "error" ∧ e.missing_count = 0 ∧ e.additional_count = 0) ∧
      (faults n = false →
        (e.status = "OK" ↔
          ((compare_configurations (section_current output_data n)
              (parse_whitelist_section d) (extract_hostname_from_output output_data) n).1 = [] ∧
           (compare_configurations (section_current output_data n)
              (parse_whitelist_section d) (extract_hostname_from_output output_data) n).2 = [])) ∧
        (e.status = "OK" ∨ e.status = "to_check")) := by
  have hreq : (parse_whitelist_section d).isEmpty = false := by
    cases hq : parse_whitelist_section d with
    | nil => exact absurd hq hne
    | cons a l => rfl
  cases hf : faults n with
  | true =>
    refine ⟨⟨n, extract_hostname_from_output output_data, "error", 0, 0⟩, ?_, rfl, ?_, ?_⟩
    · unfold process_device_comparison
      refine List.mem_map.mpr ⟨(_, []), List.mem_filterMap.mpr ⟨(n, d), hmem, ?_⟩, rfl⟩
      unfold process_section
      simp [hreq, hf]
    · intro _
      exact ⟨rfl, rfl, rfl⟩
    · intro hff
      exact Bool.noConfusion hff
  | false =>
    refine ⟨⟨n, extract_hostname_from_output output_data,
        (if (compare_configurations (section_current output_data n)
              (parse_whitelist_section d) (extract_hostname_from_output output_data) n).1 = []
            ∧ (compare_configurations (section_current output_data n)
              (parse_whitelist_section d) (extract_hostname_from_output output_data) n).2 = []
          then "OK" else "to_check"),
        (compare_configurations (section_current output_data n)
          (parse_whitelist_section d) (extract_hostname_from_output output_data) n).1.length,
        (compare_configurations (section_current output_data n)
          (parse_whitelist_section d) (extract_hostname_from_output output_data) n).2.length⟩,
      ?_, rfl, ?_, ?_⟩
    · unfold process_device_comparison
      refine List.mem_map.mpr
        ⟨(_, (compare_configurations (section_current output_data n)
            (parse_whitelist_section d) (extract_hostname_from_output output_data) n).1 ++
          (compare_configurations (section_current output_data n)
            (parse_whitelist_section d) (extract_hostname_from_output output_data) n).2),
         List.mem_filterMap.mpr ⟨(n, d), hmem, ?_⟩, rfl⟩
      unfold process_section
      simp [hreq, hf]
    · intro hft
      exact Bool.noConfusion hft
    · intro _
      dsimp only
      by_cases hok :
          (compare_configurations (section_current output_data n)
            (parse_whitelist_section d) (extract_hostname_from_output output_data) n).1 = []
          ∧ (compare_configurations (section_current output_data n)
            (parse_whitelist_section d) (extract_hostname_from_output output_data) n).2 = []
      · rw [if_pos hok]
        exact ⟨by simp [hok], Or.inl rfl⟩
      · rw [if_neg hok]
        refine ⟨?_, Or.inr rfl⟩
        constructor
        · intro hts
          exact absurd hts (by decide)
        · intro hc
          exact absurd hc hok

/-- Concrete whitelist section shared by the run-level witnesses: one required
NTP line. -/
def wlsec0 : JVal := JVal.obj [("must_include", JVal.list [JVal.str "ntp server 1.1.1.1"])]

/-- Concrete output document shared by the run-level witnesses. -/
def od0 : List (String × JVal) :=
  [("data", JVal.obj [("ntp", JVal.list [JVal.str "ntp server 1.1.1.1"])])]

/-- Witness for C4 at a concrete input: the single compliant NTP section yields
one summary row whose status obeys the stated equivalence. -/
theorem section_status_consistency_witness :
    (("ntp", wlsec0) ∈ [("ntp", wlsec0)] ∧ parse_whitelist_section wlsec0 ≠ []) ∧
    ∃ e ∈ (process_device_comparison (fun _ => false) od0 [("ntp", wlsec0)]).1,
      e.sectionName = "ntp" ∧
      ((fun _ => false : String → Bool) "ntp" = true →
        e.status = "error" ∧ e.missing_count = 0 ∧ e.additional_count = 0) ∧
      ((fun _ => false : String → Bool) "ntp" = false →
        (e.status = "OK" ↔
          ((compare_configurations (section_current od0 "ntp")
              (parse_whitelist_section wlsec0) (extract_hostname_from_output od0) "ntp").1 = [] ∧
           (compare_configurations (section_current od0 "ntp")
              (parse_whitelist_section wlsec0) (extract_hostname_from_output od0) "ntp").2 = [])) ∧
        (e.status = "OK" ∨ e.status = "to_check")) :=
  ⟨⟨List.mem_singleton.mpr rfl, by decide⟩,
    section_status_consistency (fun _ => false) od0 [("ntp", wlsec0)] "ntp" wlsec0
      (List.mem_singleton.mpr rfl) (by decide)⟩

/-- C9: every element of the run-level issue list is a finding string that
begins with "missing config: " or "additional config: " and ends with a colon
followed by the single run-scoped hostname. -/
theorem issue_message_shape (faults : String → Bool)
    (output_data whitelist_data : List (String × JVal)) (issue : String)
    (hmem : issue ∈ (process_device_comparison faults output_data whitelist_data).2) :
    ∃ body : String,
      issue = "missing config: " ++ body ++ ":" ++ extract_hostname_from_output output_data ∨
      issue = "additional config: " ++ body ++ ":" ++ extract_hostname_from_output output_data
    := by
  simp only [process_device_comparison] at hmem
  obtain ⟨r, hr, hir⟩ := List.mem_flatMap.mp hmem
  obtain ⟨kv, hkv, hF⟩ := List.mem_filterMap.mp hr
  unfold process_section at hF
  by_cases hq : (parse_whitelist_section kv.2).isEmpty
  · simp [hq] at hF
  · by_cases hf : faults kv.1
    · simp only [hq, hf, if_true, if_false, Bool.false_eq_true, Option.some.injEq] at hF
      rw [← hF] at hir
      simp at hir
    · simp only [hq, hf, if_false, Bool.false_eq_true, Option.some.injEq] at hF
      rw [← hF] at hir
      rcases List.mem_append.mp hir with hmm | hee
      · unfold compare_configurations at hmm
        obtain ⟨t, -, hsome⟩ := List.mem_filterMap.mp hmm
        obtain ⟨heq, -, -⟩ := missing_decision_eq_some hsome
        exact ⟨t, Or.inl heq⟩
      · unfold compare_configurations at hee
        obtain ⟨L, -, hsome⟩ := List.mem_filterMap.mp hee
        obtain ⟨heq, -, -, -⟩ := extra_decision_eq_some hsome
        exact ⟨L, Or.inr heq⟩

/-- Witness for C9 at a concrete input: the missing NTP finding of a run with
no usable output document carries the sentinel hostname as its suffix. -/
theorem issue_message_shape_witness :
    ("missing config: ntp server 1.1.1.1:Unknown-Device" ∈
      (process_device_comparison (fun _ => false) [] [("ntp", wlsec0)]).2) ∧
    ∃ body : String,
      "missing config: ntp server 1.1.1.1:Unknown-Device" =
          "missing config: " ++ body ++ ":" ++ extract_hostname_from_output [] ∨
      "missing config: ntp server 1.1.1.1:Unknown-Device" =
          "additional config: " ++ body ++ ":" ++ extract_hostname_from_output [] :=
  ⟨by decide,
    issue_message_shape (fun _ => false) [] [("ntp", wlsec0)]
      "missing config: ntp server 1.1.1.1:Unknown-Device" (by decide)⟩

theorem roundHalfEven_intCast (k : ℤ) : roundHalfEven (k : ℚ) = k := by
  unfold roundHalfEven
  rw [Int.floor_intCast]
  norm_num

/-- C1, as stated, is refuted: a run whose only section carries status error is
reported fully compliant (the source counts every non-to_check section), while
the claim's sections-with-status-OK formula yields zero. -/
theorem compliance_counterexample :
    reported_compliance [⟨"s1", "h1", "error", 0, 0⟩] = 100 ∧
    spec_compliance_claimed [⟨"s1", "h1", "error", 0, 0⟩] = 0 := by
  have hb1 : (("error" == "to_check") : Bool) = false := by rfl
  have hb2 : (("error" == "OK") : Bool) = false := by rfl
  constructor
  · unfold reported_compliance compliance_score
    rw [if_pos (by simp)]
    have hval : ((([⟨"s1", "h1", "error", 0, 0⟩] : List SectionSummary).length : ℚ) -
          (((([⟨"s1", "h1", "error", 0, 0⟩] : List SectionSummary).filter
            fun s => s.status == "to_check").length : ℚ))) /
          (([⟨"s1", "h1", "error", 0, 0⟩] : List SectionSummary).length : ℚ) * 100
        = ((100 : ℤ) : ℚ) := by
      simp [List.filter_cons, hb1]
    rw [hval]
    rw [max_eq_right (by positivity)]
    exact roundHalfEven_intCast 100
  · unfold spec_compliance_claimed
    have hval : ((((([⟨"s1", "h1", "error", 0, 0⟩] : List SectionSummary).filter
            fun s => s.status == "OK").length : ℚ)) /
          (([⟨"s1", "h1", "error", 0, 0⟩] : List SectionSummary).length : ℚ)) * 100
        = ((0 : ℤ) : ℚ) := by
      simp [List.filter_cons, hb2]
    rw [hval, roundHalfEven_intCast]
    rfl

theorem length_filter_not_add {α : Type} (p : α → Bool) (l : List α) :
    (l.filter fun a => !(p a)).length + (l.filter p).length = l.length := by
  induction l with
  | nil => rfl
  | cons a as ih =>
    cases hpa : p a <;> simp [List.filter_cons, hpa] <;> omega

/-- C1 (amended): for every run with a non-empty summary, the reported
compliance score equals the number of sections whose status is not to_check
(OK and error sections both count as compliant) divided by the total number of
sections, times 100, rounded, and floored at 0. -/
theorem compliance_amended (summary_data : List SectionSummary)
    (h : summary_data ≠ []) :
    reported_compliance summary_data =
      roundHalfEven (max 0
        ((((summary_data.filter fun s => !(s.status == "to_check")).length : ℚ) * 100) /
          (summary_data.length : ℚ))) := by
  unfold reported_compliance compliance_score
  have hl : 0 < summary_data.length := List.length_pos.mpr h
  rw [if_pos hl]
  congr 1
  have hn := length_filter_not_add (fun s => s.status == "to_check") summary_data
  have hcast : ((summary_data.length : ℚ) -
      ((summary_data.filter fun s => s.status == "to_check").length : ℚ))
      = ((summary_data.filter fun s => !(s.status == "to_check")).length : ℚ) := by
    have hq := congrArg (fun n : Nat => (n : ℚ)) hn
    push_cast at hq
    linarith
  rw [hcast]
  congr 1
  ring

/-- Witness for the amended C1 at a concrete input: a single OK section. -/
theorem compliance_amended_witness :
    (([⟨"s1", "h1", "OK", 0, 0⟩] : List SectionSummary) ≠ []) ∧
    reported_compliance [⟨"s1", "h1", "OK", 0, 0⟩] =
      roundHalfEven (max 0
        ((((([⟨"s1", "h1", "OK", 0, 0⟩] : List SectionSummary).filter
            fun s => !(s.status == "to_check")).length : ℚ) * 100) /
          (([⟨"s1", "h1", "OK", 0, 0⟩] : List SectionSummary).length : ℚ))) :=
  ⟨by decide, compliance_amended [⟨"s1", "h1", "OK", 0, 0⟩] (by decide)⟩
